import Mathlib

/-
  Verification development for the nswspatial client library
  (src/nswspatial/cadastre.py and src/nswspatial/address.py).

  The core is the retry/error-classification helper used by the
  cadastre client, modelled as a deterministic state machine over
  an abstract transport oracle. JSON values are modelled by the
  mutual inductive type below; Python None and parsed JSON null are
  both represented by Json.null (the Python runtime identifies them),
  and Python dict.get with its default of None is modelled by pyGet
  returning Json.null for a missing key.
-/

namespace NswSpatial

mutual

/-- A JSON value, as produced by parsing a response body. -/
inductive Json where
  | null
  | bool (b : Bool)
  | num (n : Int)
  | str (s : String)
  | arr (xs : JsonList)
  | obj (fields : JsonObj)
deriving DecidableEq

/-- Elements of a JSON array, in order. -/
inductive JsonList where
  | nil
  | cons (hd : Json) (tl : JsonList)
deriving DecidableEq

/-- Fields of a JSON object, in order. -/
inductive JsonObj where
  | nil
  | cons (k : String) (v : Json) (tl : JsonObj)
deriving DecidableEq

end

/-- Lookup of a key in an object, first occurrence wins
    (Python dicts cannot hold a key twice). -/
def JsonObj.lookup : JsonObj → String → Option Json
  | .nil, _ => Option.none
  | .cons k v tl, key => if k = key then some v else tl.lookup key

/-- Key membership among the fields of an object: the dict case of the
    Python membership test. The in operator on arbitrary values is
    pyContains below; this helper is only the dict branch of it. -/
def Json.hasKey : Json → String → Bool
  | .obj fs, key => (fs.lookup key).isSome
  | _, _ => false

/-- Python js.get(key) on a dict: the value when present, None (Json.null)
    when the key is missing. Python .get on a non-dict raises
    AttributeError: _raise_if_arcgis_error models that crash path
    explicitly through PyExc and applies pyGet to dicts only. The
    projection loops below also use pyGet on feature and attribute values;
    there a non-dict reads as Json.null where Python would raise, which
    only adds inputs to the model and removes none, so every invariant
    proved about all model outputs holds of all program outputs. -/
def Json.pyGet : Json → String → Json
  | .obj fs, key => match fs.lookup key with
    | some v => v
    | Option.none => Json.null
  | _, _ => Json.null

/-- Python exceptions outside the requests hierarchy that body inspection
    can raise: TypeError from (key in js) on a non-container scalar, and
    AttributeError from .get on a non-dict. Neither is a subclass of
    RequestException, so neither except clause of _get_json catches them
    and they propagate uncaught to the caller. -/
inductive PyExc where
  | typeError
  | attributeError
deriving DecidableEq

/-- Whether the first character list is an initial segment of the second. -/
def charsLeading : List Char → List Char → Bool
  | [], _ => true
  | _ :: _, [] => false
  | a :: as, b :: bs => a = b && charsLeading as bs

/-- Whether the first character list occurs contiguously inside the
    second: the Python substring test (key in s) on strings. -/
def charsContains (pat : List Char) : List Char → Bool
  | [] => charsLeading pat []
  | c :: cs => charsLeading pat (c :: cs) || charsContains pat cs

/-- Python list membership (key in xs) for a string key: some element
    compares equal to the key; only an equal string does (str equality
    with a non-str is False in Python, never an exception). -/
def JsonList.hasElem : JsonList → String → Bool
  | .nil, _ => false
  | .cons h t, key => h = Json.str key || t.hasElem key

/-- The Python expression (key in js) on an arbitrary value: key
    membership for a dict, substring test for a string, element membership
    for a list, and TypeError for non-container values (None, booleans,
    numbers). -/
def pyContains (js : Json) (key : String) : Except PyExc Bool :=
  match js with
  | .obj fs => .ok (fs.lookup key).isSome
  | .str s => .ok (charsContains key.data s.data)
  | .arr xs => .ok (xs.hasElem key)
  | _ => .error .typeError

/-- The debug-guard value of (debug and "error" in js) when it does not
    raise: true only when the membership test is defined and true. When
    the test raises, the print on cadastre.py line 77 never runs and the
    same exception is re-raised by _raise_if_arcgis_error two lines later,
    so only the diagnostic output is affected. -/
def pyContainsTrue (js : Json) (key : String) : Bool :=
  match pyContains js key with
  | .ok b => b
  | .error _ => false

/-- Python truthiness of a value: None, False, 0, empty string, empty list
    and empty dict are falsy, everything else is truthy. -/
def Json.truthy : Json → Bool
  | .null => false
  | .bool b => b
  | .num n => n ≠ 0
  | .str s => s ≠ ""
  | .arr .nil => false
  | .arr (.cons _ _) => true
  | .obj .nil => false
  | .obj (.cons _ _ _) => true

/-- The Python expression (a or b): a when a is truthy, b otherwise. -/
def pyOr (a b : Json) : Json :=
  if a.truthy then a else b

/-- src/nswspatial/cadastre.py line 32: substrings of ArcGIS error messages
    regarded as transient. Defined in the source but never consulted by
    any retry decision. -/
def RETRYABLE_ARCGIS_MESSAGES : List String :=
  ["error performing query operation", "failed to execute query"]

/-- Outcome of one transport-level attempt of requests.get followed by
    raise_for_status and r.json() (cadastre.py lines 72-74):
    * timeout: requests.exceptions.Timeout or ConnectionError was raised;
    * httpStatus: raise_for_status raised HTTPError on a non-2xx status
      (a RequestException that is not a Timeout or ConnectionError);
    * badJson: the 2xx body failed to parse, r.json() raised
      requests.exceptions.JSONDecodeError, which subclasses
      RequestException (requests 2.27 and later);
    * ok: a 2xx status whose body parsed to the given JSON value. -/
inductive TransportOutcome where
  | timeout (msg : String)
  | httpStatus (msg : String)
  | badJson (msg : String)
  | ok (body : Json)
deriving DecidableEq

/-- The exceptions _get_json can raise, identified by raise site and
    payload:
    * networkTimeout: the RuntimeError of cadastre.py line 98, wraps the
      last transport exception and states the URL and the configured read
      timeout;
    * httpError: the RuntimeError of cadastre.py line 95, the message is
      the HTTP-error prefix applied to the wrapped RequestException text;
    * serviceError: the RuntimeError of cadastre.py line 105 via
      _raise_if_arcgis_error, built from the message and details fields of
      the embedded error object (Json.null when the field is missing);
    * uncaughtPython: a TypeError or AttributeError escaping from the body
      inspection on cadastre.py lines 76 and 103-105 when the body or its
      error value is not the shape the code assumes; no except clause of
      _get_json matches it, so it propagates uncaught. -/
inductive FetchError where
  | networkTimeout (url : String) (timeout : Int) (lastExc : Option String)
  | httpError (msg : String)
  | serviceError (message details : Json)
  | uncaughtPython (e : PyExc)
deriving DecidableEq

/-- Terminal outcome of _get_json: the parsed body on success, or a
    raised failure. -/
inductive FetchResult where
  | success (js : Json)
  | failure (e : FetchError)
deriving DecidableEq

/-- Diagnostic events printed when debug is set, in order of emission
    (cadastre.py lines 68-70, 76-77, 89-90). -/
inductive DebugEvent where
  | queryUrl (url : String)
  | queryParams (params : String)
  | errorPayload (js : Json)
  | transientRetry (msg : String) (sleep : ℚ)
deriving DecidableEq

/-- Full observable behaviour of one call of _get_json: the terminal
    result, the number of transport attempts performed, the sleep
    durations in chronological order, and the diagnostic events. -/
structure RunResult where
  result : FetchResult
  attempts : Nat
  sleeps : List ℚ
  debugOut : List DebugEvent
deriving DecidableEq

/-- cadastre.py line 88, the pre-jitter backoff for the 0-based attempt
    counter before increment: 0.6 * 2 ^ attempt seconds. -/
def backoffBase (attempt : Nat) : ℚ :=
  0.6 * 2 ^ attempt

/-- cadastre.py lines 101-105. The test ("error" in js) follows the full
    Python in semantics and raises TypeError on a scalar body. When it is
    true, js.get("error") raises AttributeError unless js is a dict; the
    expression err = js.get("error") or \x7b\x7d then yields either a dict
    (the error object, or the empty dict when the value is falsy), from
    which the ServiceError is built, or a truthy non-dict on which
    err.get("message") raises AttributeError. When the test is false
    nothing is raised. Exceptions are returned in the error branch;
    (.ok (some e)) is the raised ServiceError, (.ok none) a silent pass. -/
def _raise_if_arcgis_error (js : Json) : Except PyExc (Option FetchError) :=
  match pyContains js "error" with
  | .error e => .error e
  | .ok false => .ok Option.none
  | .ok true =>
      match js with
      | .obj fs =>
          match pyOr (Json.pyGet (.obj fs) "error") (Json.obj .nil) with
          | .obj efs =>
              .ok (some (.serviceError (Json.pyGet (.obj efs) "message")
                (Json.pyGet (.obj efs) "details")))
          | _ => .error .attributeError
      | _ => .error .attributeError

/-- The retry loop of _get_json (cadastre.py lines 66-98), one step per
    iteration of (for attempt in range(retries + 1)). rem is the number of
    loop iterations still available, attempt the 0-based counter, lastExc
    the last transport exception seen. The transport oracle gives the
    outcome of the k-th attempt and the jitter stream the random jitter
    drawn before the k-th sleep. When rem reaches 0 the loop has been
    exhausted and line 98 raises the network-timeout failure. -/
def getJsonGo (transport : Nat → TransportOutcome) (jitter : Nat → ℚ)
    (url : String) (params : String) (timeout : Int) (debug : Bool)
    (retries : Nat) : Nat → Nat → Option String → RunResult
  | 0, _, lastExc =>
      ⟨.failure (.networkTimeout url timeout lastExc), 0, [], []⟩
  | rem + 1, attempt, _ =>
      let pre : List DebugEvent :=
        if debug then [.queryUrl url, .queryParams params] else []
      match transport attempt with
      | .ok body =>
          let payload : List DebugEvent :=
            if debug ∧ pyContainsTrue body "error" then [.errorPayload body] else []
          match _raise_if_arcgis_error body with
          | .error e => ⟨.failure (.uncaughtPython e), 1, [], pre ++ payload⟩
          | .ok (some e) => ⟨.failure e, 1, [], pre ++ payload⟩
          | .ok Option.none => ⟨.success body, 1, [], pre ++ payload⟩
      | .timeout msg =>
          if retries ≤ attempt then
            ⟨.failure (.networkTimeout url timeout (some msg)), 1, [], pre⟩
          else
            let sleep := backoffBase attempt + jitter attempt
            let dbg : List DebugEvent :=
              if debug then [.transientRetry msg sleep] else []
            let r := getJsonGo transport jitter url params timeout debug
                retries rem (attempt + 1) (some msg)
            ⟨r.result, r.attempts + 1, sleep :: r.sleeps, pre ++ dbg ++ r.debugOut⟩
      | .httpStatus msg =>
          ⟨.failure (.httpError ("HTTP error: " ++ msg)), 1, [], pre⟩
      | .badJson msg =>
          ⟨.failure (.httpError ("HTTP error: " ++ msg)), 1, [], pre⟩

/-- cadastre.py lines 50-98, _get_json(url, params, timeout, debug,
    retries): run the retry loop from attempt 0 with retries + 1 available
    iterations and no last exception. -/
def _get_json (transport : Nat → TransportOutcome) (jitter : Nat → ℚ)
    (url : String) (params : String) (timeout : Int) (debug : Bool)
    (retries : Nat) : RunResult :=
  getJsonGo transport jitter url params timeout debug retries
    (retries + 1) 0 Option.none

/-! ## address.py: parameter marshaling for address_to_point

Python string primitives are modelled by explicit character-list
recursions so that every definition evaluates inside the kernel. -/

/-- Worker for pySplitWs: acc holds the characters of the current word in
    reverse; a whitespace character closes the word, anything else extends
    it. -/
def pySplitWsAux : List Char → List Char → List String
  | [], [] => []
  | [], acc => [String.mk acc.reverse]
  | c :: cs, acc =>
      if c.isWhitespace then
        match acc with
        | [] => pySplitWsAux cs []
        | _ => String.mk acc.reverse :: pySplitWsAux cs []
      else pySplitWsAux cs (c :: acc)

/-- Python str.split() with no argument: split on runs of whitespace,
    discarding empty pieces (leading and trailing whitespace included). -/
def pySplitWs (s : String) : List String :=
  pySplitWsAux s.data []

/-- Python str.strip(): drop leading and trailing whitespace. -/
def pyStrip (s : String) : String :=
  String.mk (((s.data.dropWhile Char.isWhitespace).reverse.dropWhile
    Char.isWhitespace).reverse)

/-- Python str.lower() (ASCII letters, which is all the source compares). -/
def pyLower (s : String) : String :=
  String.mk (s.data.map Char.toLower)

/-- Python str.upper() (ASCII letters, which is all the source handles). -/
def pyUpper (s : String) : String :=
  String.mk (s.data.map Char.toUpper)

/-- Python sep.join(parts). -/
def pyJoin (sep : String) : List String → String
  | [] => ""
  | [x] => x
  | x :: y :: tl => x ++ sep ++ pyJoin sep (y :: tl)

/-- Numeric value of a string of decimal digits, most significant first. -/
def digitsVal (l : List Char) : Nat :=
  l.foldl (fun n c => 10 * n + (c.toNat - '0'.toNat)) 0

/-- The postcode argument of address_to_point: int, str or None. -/
inductive PyPostcode where
  | none
  | int (n : Int)
  | str (s : String)
deriving DecidableEq

/-- The common part of _coerce_postcode once str(postcode) is taken:
    strip, keep only digit characters, parse as an integer. The try int(s)
    of the source succeeds on every nonempty digit string, so the except
    ValueError branch returning None is unreachable here. -/
def coercePostcodeStr (raw : String) : Option Int :=
  let s := pyStrip raw
  if s = "" then Option.none
  else
    let digits := s.data.filter Char.isDigit
    if digits = [] then Option.none
    else some (Int.ofNat (digitsVal digits))

/-- address.py lines 26-39, _coerce_postcode: None stays None; otherwise
    take str(postcode).strip(), keep only its digit characters, and parse
    the remaining digits as an integer (None when nothing is left). -/
def _coerce_postcode : PyPostcode → Option Int
  | .none => Option.none
  | .int n => coercePostcodeStr (toString n)
  | .str s => coercePostcodeStr s

/-- address.py lines 42-78, parse_simple_address: normalise whitespace,
    uppercase, and split into (houseNumberString, roadName, roadType).
    With a single token only the house number is filled; with two tokens
    the second is the road name and the road type stays empty; otherwise
    the last token is the road type and the middle tokens the road name. -/
def parse_simple_address (addr : String) : String × String × String :=
  let s := pyJoin " " (pySplitWs addr)
  if s = "" then ("", "", "")
  else
    match pySplitWs (pyUpper s) with
    | [] => ("", "", "")
    | [t] => (t, "", "")
    | house :: t1 :: rest =>
        let last := (t1 :: rest).getLast (by simp)
        let road_name_tokens := (t1 :: rest).dropLast
        if road_name_tokens = [] then (house, t1, "")
        else (house, pyJoin " " road_name_tokens, last)

/-- A query-parameter value: Python passes strings and ints here. -/
inductive ParamVal where
  | str (s : String)
  | int (n : Int)
deriving DecidableEq

/-- address.py lines 92-106, the params mapping built by address_to_point
    before the HTTP call: houseNumber, roadName, roadType and projection
    are always present; suburb is added only when the argument is truthy
    with a nonempty strip; postCode only when _coerce_postcode succeeds. -/
def address_to_point_params (address : String) (suburb : Option String)
    (postcode : PyPostcode) : List (String × ParamVal) :=
  let hrt := parse_simple_address address
  let pc := _coerce_postcode postcode
  let base : List (String × ParamVal) :=
    [("houseNumber", .str hrt.1), ("roadName", .str hrt.2.1),
     ("roadType", .str hrt.2.2), ("projection", .str "EPSG:4326")]
  let withSuburb :=
    match suburb with
    | some sb => if sb ≠ "" ∧ pyStrip sb ≠ "" then base ++ [("suburb", .str (pyStrip sb))] else base
    | Option.none => base
  match pc with
  | some n => withSuburb ++ [("postCode", .int n)]
  | Option.none => withSuburb

/-! ## cadastre.py: projection of query responses -/

/-- cadastre.py lines 142-143: a section value that is a string spelling
    null or blank (after strip and lower) is normalised to None; any other
    value passes through unchanged. -/
def normaliseSection (sec : Json) : Json :=
  match sec with
  | .str s => if pyLower (pyStrip s) = "null" ∨ pyLower (pyStrip s) = "" then Json.null else .str s
  | v => v

/-- cadastre.py lines 134-151, the projection loop of
    lots_plans_from_point over the features list of the response: for each
    feature take lotnumber, sectionnumber (with the sectionumber spelling
    as fallback through the Python or) and planlabel from its attributes,
    normalise a section that is a string spelling null or blank (after
    strip and lower) to None, and append the (lot, sec, plan) key when lot
    or plan is truthy and the key was not seen before. The Python seen set
    always holds exactly the elements of out, so membership is tested on
    the accumulator. -/
def lots_plans_loop : JsonList → List (Json × Json × Json) → List (Json × Json × Json)
  | .nil, out => out
  | .cons feat tl, out =>
      let attrs := pyOr (feat.pyGet "attributes") (Json.obj .nil)
      let lot := attrs.pyGet "lotnumber"
      let sec := normaliseSection (pyOr (attrs.pyGet "sectionnumber") (attrs.pyGet "sectionumber"))
      let plan := attrs.pyGet "planlabel"
      let key := (lot, sec, plan)
      if (lot.truthy ∨ plan.truthy) ∧ key ∉ out then
        lots_plans_loop tl (out ++ [key])
      else
        lots_plans_loop tl out

/-- The elements of a JSON array; a non-array value yields no elements
    (cadastre.py iterates js.get("features") or [], which is a list in
    every well-formed response). -/
def Json.elems : Json → JsonList
  | .arr xs => xs
  | _ => .nil

/-- cadastre.py lines 113-151, lots_plans_from_point applied to the parsed
    response body of the query endpoint. -/
def lots_plans_from_point (js : Json) : List (Json × Json × Json) :=
  lots_plans_loop (pyOr (js.pyGet "features") (Json.arr .nil)).elems []

/-- cadastre.py lines 179-187, the projection loop of nearby_lots: keep
    the (lotnumber, planlabel) pair of each feature when both are truthy
    and the pair was not seen before. -/
def nearby_lots_loop : JsonList → List (Json × Json) → List (Json × Json)
  | .nil, results => results
  | .cons f tl, results =>
      let attrs := pyOr (f.pyGet "attributes") (Json.obj .nil)
      let lot := attrs.pyGet "lotnumber"
      let plan := attrs.pyGet "planlabel"
      if lot.truthy ∧ plan.truthy then
        let key := (lot, plan)
        if key ∉ results then nearby_lots_loop tl (results ++ [key])
        else nearby_lots_loop tl results
      else nearby_lots_loop tl results

/-- cadastre.py lines 154-189, nearby_lots applied to the parsed response
    body of the query endpoint. -/
def nearby_lots (js : Json) : List (Json × Json) :=
  nearby_lots_loop (pyOr (js.pyGet "features") (Json.arr .nil)).elems []

/-! ## cadastre.py: lot_geometry_mga_from_point -/

/-- A network round trip issued by lot_geometry_mga_from_point: the
    identify request built from the lon/lat point (lines 220-235), or the
    parcel-geometry query for a given objectid and outSR (lines 258-269). -/
inductive GeoRequest where
  | identify (lon lat : ℚ)
  | query (oid : Json) (outSR : Int)
deriving DecidableEq

/-- The exceptions lot_geometry_mga_from_point can raise in the model:
    the ValueError of the EPSG guard (line 217), or a Python TypeError
    from subscripting a truthy non-list results or features value. -/
inductive GeoError where
  | invalidEpsg (msg : String)
  | subscriptError
deriving DecidableEq

/-- cadastre.py line 217, the guard message of the EPSG range check. -/
def epsgGuardMsg : String :=
  "epsg must be MGA2020 projected EPSG in range 7846..7859 or 28346..28359"

/-- cadastre.py lines 219-288, the body after the EPSG guard, against a
    transport oracle that returns the parsed JSON body of each request
    (transport-level failures propagate from requests.get and are outside
    this model). Returns the requests issued in order and the rings value
    (an empty list when no parcel is identified). The duplicated
    feature/geometry reads on lines 276-288 compute the same values twice;
    the model computes them once. -/
def lot_geometry_steps (net : GeoRequest → Json) (lon lat : ℚ) (epsg : Int) :
    List GeoRequest × Except GeoError Json :=
  let js := net (.identify lon lat)
  let results := pyOr (js.pyGet "results") (Json.arr .nil)
  if ¬ results.truthy then ([.identify lon lat], .ok (Json.arr .nil))
  else
    match results with
    | .arr (.cons r0 _) =>
        let attrs := pyOr (r0.pyGet "attributes") (Json.obj .nil)
        let oid := pyOr (attrs.pyGet "objectid") (attrs.pyGet "OBJECTID")
        if ¬ oid.truthy then ([.identify lon lat], .ok (Json.arr .nil))
        else
          let js2 := net (.query oid epsg)
          let feats := pyOr (js2.pyGet "features") (Json.arr .nil)
          if ¬ feats.truthy then
            ([.identify lon lat, .query oid epsg], .ok (Json.arr .nil))
          else
            match feats with
            | .arr (.cons f0 _) =>
                let geom := pyOr (f0.pyGet "geometry") (Json.obj .nil)
                ([.identify lon lat, .query oid epsg],
                 .ok (pyOr (geom.pyGet "rings") (Json.arr .nil)))
            | _ => ([.identify lon lat, .query oid epsg], .error .subscriptError)
    | _ => ([.identify lon lat], .error .subscriptError)

/-- cadastre.py lines 192-288, lot_geometry_mga_from_point: the EPSG guard
    on lines 216-217 raises ValueError before any network request when
    epsg lies outside both MGA ranges; otherwise the two-step
    identify-then-query body runs. -/
def lot_geometry_mga_from_point (net : GeoRequest → Json) (lon lat : ℚ)
    (epsg : Int) : List GeoRequest × Except GeoError Json :=
  if ¬ (7846 ≤ epsg ∧ epsg ≤ 7859) ∧ ¬ (28346 ≤ epsg ∧ epsg ≤ 28359) then
    ([], .error (.invalidEpsg epsgGuardMsg))
  else
    lot_geometry_steps net lon lat epsg

/-! ## Lemmas about the retry loop -/

/-- The loop performs at most one transport attempt per available
    iteration. -/
theorem getJsonGo_attempts_le (transport : Nat → TransportOutcome) (jitter : Nat → ℚ)
    (url params : String) (timeout : Int) (debug : Bool) (retries : Nat) :
    ∀ rem attempt lastExc,
      (getJsonGo transport jitter url params timeout debug retries rem attempt lastExc).attempts ≤ rem := by
  intro rem
  induction rem with
  | zero => intro attempt lastExc; simp [getJsonGo]
  | succ n ih =>
      intro attempt lastExc
      simp only [getJsonGo]
      cases h : transport attempt with
      | ok body =>
          cases herr : _raise_if_arcgis_error body with
          | error e => simp [herr]
          | ok oe => cases oe <;> simp [herr]
      | timeout msg =>
          by_cases hle : retries ≤ attempt
          · simp [hle]
          · simp only [hle, if_false]
            have := ih (attempt + 1) (some msg)
            omega
      | httpStatus msg => simp
      | badJson msg => simp

/-- With at least one iteration available, at least one transport attempt
    is performed. -/
theorem getJsonGo_attempts_pos (transport : Nat → TransportOutcome) (jitter : Nat → ℚ)
    (url params : String) (timeout : Int) (debug : Bool) (retries : Nat) :
    ∀ rem attempt lastExc, 1 ≤ rem →
      1 ≤ (getJsonGo transport jitter url params timeout debug retries rem attempt lastExc).attempts := by
  intro rem
  cases rem with
  | zero => intro attempt lastExc h; omega
  | succ n =>
      intro attempt lastExc _
      simp only [getJsonGo]
      cases h : transport attempt with
      | ok body =>
          cases herr : _raise_if_arcgis_error body with
          | error e => simp [herr]
          | ok oe => cases oe <;> simp [herr]
      | timeout msg =>
          by_cases hle : retries ≤ attempt
          · simp [hle]
          · simp [hle]
      | httpStatus msg => simp
      | badJson msg => simp

/-- When every transport attempt times out, a loop entered at the given
    attempt counter with the matching number of remaining iterations uses
    them all and ends in the network-timeout failure wrapping the last
    transport exception. -/
theorem getJsonGo_all_timeout (transport : Nat → TransportOutcome) (jitter : Nat → ℚ)
    (url params : String) (timeout : Int) (debug : Bool) (retries : Nat)
    (m : Nat → String) (hall : ∀ k, transport k = .timeout (m k)) :
    ∀ rem attempt lastExc, attempt + rem = retries + 1 → 1 ≤ rem →
      (getJsonGo transport jitter url params timeout debug retries rem attempt lastExc).result =
        .failure (.networkTimeout url timeout (some (m retries))) ∧
      (getJsonGo transport jitter url params timeout debug retries rem attempt lastExc).attempts = rem := by
  intro rem
  induction rem with
  | zero => intro attempt lastExc _ h1; omega
  | succ n ih =>
      intro attempt lastExc hsum _
      simp only [getJsonGo, hall attempt]
      by_cases hle : retries ≤ attempt
      · have hattempt : attempt = retries := by omega
        subst hattempt
        rw [if_pos hle]
        refine ⟨rfl, ?_⟩
        show 1 = n + 1
        omega
      · have hn : 1 ≤ n := by omega
        have := ih (attempt + 1) (some (m attempt)) (by omega) hn
        simp only [hle, if_false]
        simpa using this

/-- In every run, the k-th sleep (0-based, chronological) belongs to the
    k-th attempt: its duration is the pre-jitter backoff of that attempt
    plus the jitter drawn for it. -/
theorem getJsonGo_sleeps (transport : Nat → TransportOutcome) (jitter : Nat → ℚ)
    (url params : String) (timeout : Int) (debug : Bool) (retries : Nat) :
    ∀ rem attempt lastExc, attempt + rem = retries + 1 →
      (getJsonGo transport jitter url params timeout debug retries rem attempt lastExc).sleeps =
        (List.range' attempt
          ((getJsonGo transport jitter url params timeout debug retries rem attempt lastExc).attempts - 1)).map
          (fun k => backoffBase k + jitter k) := by
  intro rem
  induction rem with
  | zero => intro attempt lastExc _; simp [getJsonGo]
  | succ n ih =>
      intro attempt lastExc hsum
      simp only [getJsonGo]
      cases h : transport attempt with
      | ok body =>
          cases herr : _raise_if_arcgis_error body with
          | error e => simp [herr]
          | ok oe => cases oe <;> simp [herr]
      | timeout msg =>
          by_cases hle : retries ≤ attempt
          · simp [hle]
          · have hn : 1 ≤ n := by omega
            have hpos := getJsonGo_attempts_pos transport jitter url params timeout debug retries
              n (attempt + 1) (some msg) hn
            have hrec := ih (attempt + 1) (some msg) (by omega)
            simp only [hle, if_false]
            simp only [hrec]
            have hsplit :
                (getJsonGo transport jitter url params timeout debug retries n (attempt + 1) (some msg)).attempts + 1 - 1 =
                ((getJsonGo transport jitter url params timeout debug retries n (attempt + 1) (some msg)).attempts - 1) + 1 := by
              omega
            simp [hsplit, List.range'_succ]
      | httpStatus msg => simp
      | badJson msg => simp

/-- The debug flag changes only the diagnostic events of a run: result,
    attempt count and sleep schedule are identical for any two debug
    settings. -/
theorem getJsonGo_debug_eq (transport : Nat → TransportOutcome) (jitter : Nat → ℚ)
    (url params : String) (timeout : Int) (d1 d2 : Bool) (retries : Nat) :
    ∀ rem attempt lastExc,
      (getJsonGo transport jitter url params timeout d1 retries rem attempt lastExc).result =
        (getJsonGo transport jitter url params timeout d2 retries rem attempt lastExc).result ∧
      (getJsonGo transport jitter url params timeout d1 retries rem attempt lastExc).attempts =
        (getJsonGo transport jitter url params timeout d2 retries rem attempt lastExc).attempts ∧
      (getJsonGo transport jitter url params timeout d1 retries rem attempt lastExc).sleeps =
        (getJsonGo transport jitter url params timeout d2 retries rem attempt lastExc).sleeps := by
  intro rem
  induction rem with
  | zero => intro attempt lastExc; exact ⟨rfl, rfl, rfl⟩
  | succ n ih =>
      intro attempt lastExc
      simp only [getJsonGo]
      cases h : transport attempt with
      | ok body =>
          cases herr : _raise_if_arcgis_error body with
          | error e => simp [herr]
          | ok oe => cases oe <;> simp [herr]
      | timeout msg =>
          by_cases hle : retries ≤ attempt
          · simp [hle]
          · have := ih (attempt + 1) (some msg)
            simp only [hle, if_false]
            simp [this.1, this.2.1, this.2.2]
      | httpStatus msg => simp
      | badJson msg => simp

/-- A successful result always carries a body some attempt received from
    the transport and _raise_if_arcgis_error passed silently: success is
    never fabricated from a failure or a default value. -/
theorem getJsonGo_success_source (transport : Nat → TransportOutcome) (jitter : Nat → ℚ)
    (url params : String) (timeout : Int) (debug : Bool) (retries : Nat) :
    ∀ rem attempt lastExc js,
      (getJsonGo transport jitter url params timeout debug retries rem attempt lastExc).result =
        .success js →
      ∃ k, transport k = .ok js ∧ _raise_if_arcgis_error js = .ok Option.none := by
  intro rem
  induction rem with
  | zero =>
      intro attempt lastExc js h
      simp [getJsonGo] at h
  | succ n ih =>
      intro attempt lastExc js h
      simp only [getJsonGo] at h
      cases htr : transport attempt with
      | ok body =>
          rw [htr] at h
          dsimp only at h
          cases herr : _raise_if_arcgis_error body with
          | error e => rw [herr] at h; simp at h
          | ok oe =>
              cases oe with
              | none =>
                  rw [herr] at h
                  simp at h
                  exact ⟨attempt, h ▸ htr, h ▸ herr⟩
              | some e => rw [herr] at h; simp at h
      | timeout msg =>
          rw [htr] at h
          dsimp only at h
          by_cases hle : retries ≤ attempt
          · rw [if_pos hle] at h
            simp at h
          · rw [if_neg hle] at h
            exact ih (attempt + 1) (some msg) js h
      | httpStatus msg => rw [htr] at h; simp at h
      | badJson msg => rw [htr] at h; simp at h

/-! ## Claim theorems for the request client -/

/-- Claim C1: for every max retries N, if every HTTP attempt raises a
    transport timeout or connection failure, _get_json performs exactly
    N + 1 attempts and raises the network-timeout failure wrapping the
    last transport exception and stating the URL and the configured read
    timeout; and for any transport behaviour the total attempt count never
    exceeds N + 1. -/
theorem claim_retry_bound (transport : Nat → TransportOutcome) (jitter : Nat → ℚ)
    (url params : String) (timeout : Int) (debug : Bool) (retries : Nat)
    (m : Nat → String) (hall : ∀ k, transport k = .timeout (m k)) :
    (_get_json transport jitter url params timeout debug retries).attempts = retries + 1 ∧
    (_get_json transport jitter url params timeout debug retries).result =
      .failure (.networkTimeout url timeout (some (m retries))) ∧
    ∀ t2 : Nat → TransportOutcome,
      (_get_json t2 jitter url params timeout debug retries).attempts ≤ retries + 1 := by
  have h := getJsonGo_all_timeout transport jitter url params timeout debug retries m hall
    (retries + 1) 0 Option.none (by omega) (by omega)
  exact ⟨h.2, h.1,
    fun t2 => getJsonGo_attempts_le t2 jitter url params timeout debug retries
      (retries + 1) 0 Option.none⟩

/-- Witness for claim C1: three attempts and the network-timeout failure
    at retries = 2 against an always-timing-out transport. -/
theorem claim_retry_bound_witness :
    (_get_json (fun _ => .timeout "boom") (fun _ => 0) "u" "p" 15 false 2).attempts = 2 + 1 ∧
    (_get_json (fun _ => .timeout "boom") (fun _ => 0) "u" "p" 15 false 2).result =
      .failure (.networkTimeout "u" 15 (some "boom")) := by
  have h := claim_retry_bound (fun _ => .timeout "boom") (fun _ => 0) "u" "p" 15 false 2
    (fun _ => "boom") (fun _ => rfl)
  exact ⟨h.1, h.2.1⟩

/-- Claim C2 counterexample: the dict body whose error value is the
    string "boom" contains a top-level error field, so it is within the
    scope of the claim, yet the source sets err to the truthy non-dict
    "boom" (the or-default does not apply) and err.get("message") raises
    an uncaught AttributeError (cadastre.py lines 104-105): one attempt,
    but no ServiceError. -/
theorem claim_no_retry_on_service_error_counterexample :
    (_get_json (fun _ => .ok (Json.obj (.cons "error" (.str "boom") .nil))) (fun _ => 0)
      "u" "p" 15 false 2).attempts = 1 ∧
    (_get_json (fun _ => .ok (Json.obj (.cons "error" (.str "boom") .nil))) (fun _ => 0)
      "u" "p" 15 false 2).result = .failure (.uncaughtPython .attributeError) :=
  ⟨rfl, rfl⟩

/-- Claim C2 as amended: a first attempt answered with 2xx and a dict body
    holding a top-level error key whose value is a dict or falsy ends the
    call after exactly one attempt with the ServiceError built from the
    message and details fields of the error object, for every such body —
    in particular also when the message matches a known-transient
    substring; a truthy non-dict error value instead raises an uncaught
    AttributeError, likewise after one attempt and with no retry. -/
theorem claim_no_retry_on_service_error_amended (transport : Nat → TransportOutcome)
    (jitter : Nat → ℚ) (url params : String) (timeout : Int) (debug : Bool) (retries : Nat)
    (fs efs : JsonObj) (h0 : transport 0 = .ok (Json.obj fs))
    (herr : Json.hasKey (Json.obj fs) "error" = true)
    (hval : pyOr (Json.pyGet (Json.obj fs) "error") (Json.obj .nil) = Json.obj efs) :
    (_get_json transport jitter url params timeout debug retries).attempts = 1 ∧
    (_get_json transport jitter url params timeout debug retries).result =
      .failure (.serviceError (Json.pyGet (Json.obj efs) "message")
        (Json.pyGet (Json.obj efs) "details")) := by
  unfold _get_json
  have hkey : (fs.lookup "error").isSome = true := herr
  simp [getJsonGo, h0, _raise_if_arcgis_error, pyContains, hkey, hval]

/-- Witness for amended claim C2: one attempt and the ServiceError, for a
    dict error object whose message is listed in
    RETRYABLE_ARCGIS_MESSAGES. -/
theorem claim_no_retry_on_service_error_amended_witness :
    "error performing query operation" ∈ RETRYABLE_ARCGIS_MESSAGES ∧
    (_get_json (fun _ => .ok (Json.obj (.cons "error" (Json.obj (.cons "message"
        (.str "error performing query operation") .nil)) .nil))) (fun _ => 0)
      "u" "p" 15 false 2).attempts = 1 ∧
    (_get_json (fun _ => .ok (Json.obj (.cons "error" (Json.obj (.cons "message"
        (.str "error performing query operation") .nil)) .nil))) (fun _ => 0)
      "u" "p" 15 false 2).result =
      .failure (.serviceError (.str "error performing query operation") .null) := by
  have h := claim_no_retry_on_service_error_amended (fun _ => .ok (Json.obj (.cons "error"
      (Json.obj (.cons "message" (.str "error performing query operation") .nil)) .nil)))
    (fun _ => 0) "u" "p" 15 false 2
    (.cons "error" (Json.obj (.cons "message" (.str "error performing query operation") .nil)) .nil)
    (.cons "message" (.str "error performing query operation") .nil)
    rfl (by decide) (by decide)
  refine ⟨by decide, h.1, ?_⟩
  rw [h.2]
  decide

/-- Claim C3: a first attempt whose response carries a non-2xx status
    (raise_for_status raising, with no timeout or connection failure) ends
    the call after exactly one attempt with the HttpError wrapping the
    status text; it is never retried. -/
theorem claim_no_retry_on_http_error (transport : Nat → TransportOutcome) (jitter : Nat → ℚ)
    (url params : String) (timeout : Int) (debug : Bool) (retries : Nat) (msg : String)
    (h0 : transport 0 = .httpStatus msg) :
    (_get_json transport jitter url params timeout debug retries).attempts = 1 ∧
    (_get_json transport jitter url params timeout debug retries).result =
      .failure (.httpError ("HTTP error: " ++ msg)) := by
  unfold _get_json
  simp [getJsonGo, h0]

/-- Witness for claim C3: one attempt and the HttpError at a concrete 500
    status text. -/
theorem claim_no_retry_on_http_error_witness :
    (_get_json (fun _ => .httpStatus "500 Server Error") (fun _ => 0) "u" "p" 15 false 2).attempts = 1 ∧
    (_get_json (fun _ => .httpStatus "500 Server Error") (fun _ => 0) "u" "p" 15 false 2).result =
      .failure (.httpError ("HTTP error: " ++ "500 Server Error")) :=
  claim_no_retry_on_http_error (fun _ => .httpStatus "500 Server Error") (fun _ => 0)
    "u" "p" 15 false 2 "500 Server Error" rfl

/-- Claim C4: every sleep performed before a retry equals the pre-jitter
    backoff 0.6 * 2 ^ k of the 0-based attempt counter k before increment,
    plus the jitter drawn in [0, 0.4) for that attempt; and the pre-jitter
    backoff values strictly increase with k. -/
theorem claim_backoff_schedule (transport : Nat → TransportOutcome) (jitter : Nat → ℚ)
    (url params : String) (timeout : Int) (debug : Bool) (retries : Nat)
    (hj : ∀ k, 0 ≤ jitter k ∧ jitter k < 0.4) :
    (∀ k s, (_get_json transport jitter url params timeout debug retries).sleeps.get? k = some s →
        s = backoffBase k + jitter k ∧ backoffBase k ≤ s ∧ s < backoffBase k + 0.4) ∧
    (∀ k, backoffBase k < backoffBase (k + 1)) := by
  constructor
  · intro k s hks
    have hs := getJsonGo_sleeps transport jitter url params timeout debug retries
      (retries + 1) 0 Option.none (by omega)
    have hks' : ((List.range' 0
        ((getJsonGo transport jitter url params timeout debug retries
          (retries + 1) 0 Option.none).attempts - 1)).map
          (fun j => backoffBase j + jitter j)).get? k = some s := by
      rw [← hs]; exact hks
    rw [List.get?_eq_getElem?, List.getElem?_map] at hks'
    rcases Option.map_eq_some'.mp hks' with ⟨j, hj1, hj2⟩
    have hlt : k < (getJsonGo transport jitter url params timeout debug retries
        (retries + 1) 0 Option.none).attempts - 1 := by
      by_contra hnk
      rw [List.getElem?_eq_none (by simp [List.length_range']; omega)] at hj1
      exact Option.noConfusion hj1
    rw [List.getElem?_range' _ _ hlt] at hj1
    have hjk : j = k := by
      have h' := Option.some.inj hj1
      omega
    subst hjk
    have hbound := hj j
    refine ⟨hj2.symm, ?_, ?_⟩
    · rw [← hj2]; linarith [hbound.1]
    · rw [← hj2]; linarith [hbound.2]
  · intro k
    have hpow : (0 : ℚ) < 2 ^ k := by positivity
    simp only [backoffBase, pow_succ]
    nlinarith

/-- Witness for claim C4: the first sleep of an all-timeout run with zero
    jitter is exactly the pre-jitter backoff 0.6 of attempt 0, inside the
    scheduled interval. -/
theorem claim_backoff_schedule_witness :
    (0.6 : ℚ) = backoffBase 0 + 0 ∧ backoffBase 0 ≤ 0.6 ∧ (0.6 : ℚ) < backoffBase 0 + 0.4 := by
  have h := claim_backoff_schedule (fun _ => .timeout "t") (fun _ => 0) "u" "p" 15 false 2
    (fun k => ⟨le_refl 0, by norm_num⟩)
  have h0 : (_get_json (fun _ => .timeout "t") (fun _ => 0) "u" "p" 15 false 2).sleeps.get? 0 =
      some 0.6 := by
    norm_num [_get_json, getJsonGo, backoffBase, List.get?]
  have h1 := h.1 0 0.6 h0
  exact ⟨h1.1, h1.2.1, h1.2.2⟩

/-- Claim C5 counterexample: the scalar body 5 parses as JSON and
    contains no top-level error key, so it is within the scope of the
    claim, yet the source raises TypeError at the membership test
    ("error" in js) on cadastre.py line 103 instead of returning the
    parsed value. -/
theorem claim_success_passthrough_counterexample :
    (_get_json (fun _ => .ok (Json.num 5)) (fun _ => 0) "u" "p" 15 false 2).attempts = 1 ∧
    (_get_json (fun _ => .ok (Json.num 5)) (fun _ => 0) "u" "p" 15 false 2).result =
      .failure (.uncaughtPython .typeError) :=
  ⟨rfl, rfl⟩

/-- Claim C5 as amended: a first attempt answered with 2xx and a JSON body
    for which the Python membership test ("error" in body) is defined and
    false — a dict without the key, a string without the substring, a list
    without an "error" element — returns exactly that parsed value,
    unchanged, after a single attempt; a scalar body instead raises an
    uncaught TypeError from the membership test itself. -/
theorem claim_success_passthrough_amended (transport : Nat → TransportOutcome) (jitter : Nat → ℚ)
    (url params : String) (timeout : Int) (debug : Bool) (retries : Nat) (body : Json)
    (h0 : transport 0 = .ok body) (herr : pyContains body "error" = .ok false) :
    (_get_json transport jitter url params timeout debug retries).attempts = 1 ∧
    (_get_json transport jitter url params timeout debug retries).result = .success body := by
  unfold _get_json
  simp [getJsonGo, h0, _raise_if_arcgis_error, herr]

/-- Witness for amended claim C5: the body of the success-passthrough
    example of the spec is returned unchanged after one attempt. -/
theorem claim_success_passthrough_amended_witness :
    (_get_json (fun _ => .ok (Json.obj (.cons "results" (Json.arr (.cons (Json.obj
        (.cons "attributes" (Json.obj (.cons "lotnumber" (.str "5") .nil)) .nil))
        .nil)) .nil))) (fun _ => 0) "u" "p" 15 false 2).attempts = 1 ∧
    (_get_json (fun _ => .ok (Json.obj (.cons "results" (Json.arr (.cons (Json.obj
        (.cons "attributes" (Json.obj (.cons "lotnumber" (.str "5") .nil)) .nil))
        .nil)) .nil))) (fun _ => 0) "u" "p" 15 false 2).result =
      .success (Json.obj (.cons "results" (Json.arr (.cons (Json.obj
        (.cons "attributes" (Json.obj (.cons "lotnumber" (.str "5") .nil)) .nil))
        .nil)) .nil)) :=
  claim_success_passthrough_amended (fun _ => .ok (Json.obj (.cons "results" (Json.arr (.cons (Json.obj
      (.cons "attributes" (Json.obj (.cons "lotnumber" (.str "5") .nil)) .nil))
      .nil)) .nil))) (fun _ => 0) "u" "p" 15 false 2 _ rfl rfl

/-- Claim C7 counterexample: a 2xx response whose body fails to parse as
    JSON is raised through the very same RuntimeError branch as an HTTP
    status error — the outcome is the HttpError kind and is equal to the
    outcome of a transport that failed with a non-2xx status carrying the
    same text, so no fourth JsonParseError kind distinguishable from
    HttpError exists. -/
theorem claim_failure_taxonomy_counterexample :
    (_get_json (fun _ => .badJson "Expecting value") (fun _ => 0) "u" "p" 15 false 2).result =
      .failure (.httpError ("HTTP error: " ++ "Expecting value")) ∧
    (_get_json (fun _ => .badJson "Expecting value") (fun _ => 0) "u" "p" 15 false 2).result =
      (_get_json (fun _ => .httpStatus "Expecting value") (fun _ => 0) "u" "p" 15 false 2).result :=
  ⟨rfl, rfl⟩

/-- Claim C7 as amended: failures are never swallowed or downgraded to a
    default — a successful result only ever carries a body some attempt
    received from the transport and that passed the error check silently —
    and they reach the caller as the networkTimeout, httpError or
    serviceError RuntimeErrors or as an uncaught AttributeError/TypeError
    when the body or its error value is not the shape the code assumes; a
    2xx body that fails to parse as JSON is fatal after exactly one
    attempt, not retried, but propagates as the HttpError kind rather than
    a distinct JsonParseError. -/
theorem claim_failure_taxonomy_amended (transport : Nat → TransportOutcome) (jitter : Nat → ℚ)
    (url params : String) (timeout : Int) (debug : Bool) (retries : Nat) :
    (∀ msg, transport 0 = .badJson msg →
      (_get_json transport jitter url params timeout debug retries).attempts = 1 ∧
      (_get_json transport jitter url params timeout debug retries).result =
        .failure (.httpError ("HTTP error: " ++ msg))) ∧
    (∀ body e, transport 0 = .ok body → _raise_if_arcgis_error body = .error e →
      (_get_json transport jitter url params timeout debug retries).attempts = 1 ∧
      (_get_json transport jitter url params timeout debug retries).result =
        .failure (.uncaughtPython e)) ∧
    (∀ js, (_get_json transport jitter url params timeout debug retries).result = .success js →
      ∃ k, transport k = .ok js ∧ _raise_if_arcgis_error js = .ok Option.none) := by
  refine ⟨?_, ?_, ?_⟩
  · intro msg h0
    unfold _get_json
    simp [getJsonGo, h0]
  · intro body e h0 herr
    unfold _get_json
    simp [getJsonGo, h0, herr]
  · intro js h
    exact getJsonGo_success_source transport jitter url params timeout debug retries
      (retries + 1) 0 Option.none js h

/-- Witness for amended claim C7: a concrete JSON decode failure surfaces
    as the HttpError kind, and a list body containing the element "error"
    surfaces as an uncaught AttributeError, each after exactly one
    attempt. -/
theorem claim_failure_taxonomy_amended_witness :
    (_get_json (fun _ => .badJson "Expecting value: line 1 column 1")
      (fun _ => 0) "u" "p" 15 false 2).attempts = 1 ∧
    (_get_json (fun _ => .badJson "Expecting value: line 1 column 1")
      (fun _ => 0) "u" "p" 15 false 2).result =
      .failure (.httpError ("HTTP error: " ++ "Expecting value: line 1 column 1")) ∧
    (_get_json (fun _ => .ok (Json.arr (.cons (.str "error") .nil)))
      (fun _ => 0) "u" "p" 15 false 2).result =
      .failure (.uncaughtPython .attributeError) := by
  have h1 := (claim_failure_taxonomy_amended (fun _ => .badJson "Expecting value: line 1 column 1")
    (fun _ => 0) "u" "p" 15 false 2).1 "Expecting value: line 1 column 1" rfl
  have h2 := (claim_failure_taxonomy_amended (fun _ => .ok (Json.arr (.cons (.str "error") .nil)))
    (fun _ => 0) "u" "p" 15 false 2).2.1 (Json.arr (.cons (.str "error") .nil)) .attributeError
    rfl rfl
  exact ⟨h1.1, h1.2, h2.2⟩

/-- Claim C8: with identical url, params, timeout, max retries, transport
    behaviour and jitter draws, a call with debug set and a call with
    debug unset have the same result, the same number of attempts and the
    same sleep schedule — the debug flag produces diagnostic output only
    and never affects control flow. -/
theorem claim_debug_noninterference (transport : Nat → TransportOutcome) (jitter : Nat → ℚ)
    (url params : String) (timeout : Int) (retries : Nat) :
    (_get_json transport jitter url params timeout true retries).result =
      (_get_json transport jitter url params timeout false retries).result ∧
    (_get_json transport jitter url params timeout true retries).attempts =
      (_get_json transport jitter url params timeout false retries).attempts ∧
    (_get_json transport jitter url params timeout true retries).sleeps =
      (_get_json transport jitter url params timeout false retries).sleeps :=
  getJsonGo_debug_eq transport jitter url params timeout true false retries
    (retries + 1) 0 Option.none

/-! ## Lemmas about the projection loops and the geometry guard -/

/-- A value produced by normaliseSection is never a string spelling null
    or blank. -/
theorem normaliseSection_ne_null_str (v : Json) (z : String)
    (hz : normaliseSection v = Json.str z) :
    pyLower (pyStrip z) ≠ "null" ∧ pyLower (pyStrip z) ≠ "" := by
  cases v with
  | str s =>
      by_cases hc : pyLower (pyStrip s) = "null" ∨ pyLower (pyStrip s) = ""
      · rw [normaliseSection, if_pos hc] at hz
        exact absurd hz (by simp)
      · rw [normaliseSection, if_neg hc] at hz
        have hsz : s = z := by
          have := hz
          simp at this
          exact this
        subst hsz
        exact not_or.mp hc
  | null => exact absurd hz (by simp [normaliseSection])
  | bool b => exact absurd hz (by simp [normaliseSection])
  | num n => exact absurd hz (by simp [normaliseSection])
  | arr xs => exact absurd hz (by simp [normaliseSection])
  | obj fs => exact absurd hz (by simp [normaliseSection])

/-- The lots-plans loop keeps the accumulator free of duplicates. -/
theorem lots_plans_loop_nodup : ∀ (feats : JsonList) (out : List (Json × Json × Json)),
    out.Nodup → (lots_plans_loop feats out).Nodup
  | .nil, out, h => by simpa [lots_plans_loop] using h
  | .cons feat tl, out, h => by
      simp only [lots_plans_loop]
      split
      · next hc =>
          refine lots_plans_loop_nodup tl _ ?_
          rw [List.nodup_append]
          exact ⟨h, List.nodup_singleton _, by simpa using hc.2⟩
      · exact lots_plans_loop_nodup tl _ h

/-- Every element of the lots-plans loop output is either from the
    accumulator or a key admitted by the filter: truthy lot number or plan
    label, and a section already normalised. -/
theorem lots_plans_loop_mem : ∀ (feats : JsonList) (out : List (Json × Json × Json))
    (t : Json × Json × Json), t ∈ lots_plans_loop feats out →
    t ∈ out ∨ ((t.1.truthy ∨ t.2.2.truthy) ∧
      ∀ z, t.2.1 = Json.str z → pyLower (pyStrip z) ≠ "null" ∧ pyLower (pyStrip z) ≠ "")
  | .nil, out, t, ht => by
      simp only [lots_plans_loop] at ht
      exact Or.inl ht
  | .cons feat tl, out, t, ht => by
      simp only [lots_plans_loop] at ht
      split at ht
      · next hc =>
          rcases lots_plans_loop_mem tl _ t ht with hmem | hP
          · rcases List.mem_append.mp hmem with h1 | h2
            · exact Or.inl h1
            · right
              have hkey := List.mem_singleton.mp h2
              subst hkey
              refine ⟨hc.1, ?_⟩
              intro z hz
              exact normaliseSection_ne_null_str _ z hz
          · exact Or.inr hP
      · exact lots_plans_loop_mem tl _ t ht

/-- The nearby-lots loop keeps the accumulator free of duplicates. -/
theorem nearby_lots_loop_nodup : ∀ (feats : JsonList) (out : List (Json × Json)),
    out.Nodup → (nearby_lots_loop feats out).Nodup
  | .nil, out, h => by simpa [nearby_lots_loop] using h
  | .cons f tl, out, h => by
      simp only [nearby_lots_loop]
      split
      · split
        · next hmem =>
            refine nearby_lots_loop_nodup tl _ ?_
            rw [List.nodup_append]
            exact ⟨h, List.nodup_singleton _, by simpa using hmem⟩
        · exact nearby_lots_loop_nodup tl _ h
      · exact nearby_lots_loop_nodup tl _ h

/-- Every element of the nearby-lots loop output is either from the
    accumulator or a pair with truthy lot number and plan label. -/
theorem nearby_lots_loop_mem : ∀ (feats : JsonList) (out : List (Json × Json))
    (p : Json × Json), p ∈ nearby_lots_loop feats out →
    p ∈ out ∨ (p.1.truthy ∧ p.2.truthy)
  | .nil, out, p, hp => by
      simp only [nearby_lots_loop] at hp
      exact Or.inl hp
  | .cons f tl, out, p, hp => by
      simp only [nearby_lots_loop] at hp
      split at hp
      · next hc =>
          split at hp
          · rcases nearby_lots_loop_mem tl _ p hp with hmem | hP
            · rcases List.mem_append.mp hmem with h1 | h2
              · exact Or.inl h1
              · right
                have hkey := List.mem_singleton.mp h2
                subst hkey
                exact hc
            · exact Or.inr hP
          · exact nearby_lots_loop_mem tl _ p hp
      · exact nearby_lots_loop_mem tl _ p hp

/-- After the EPSG guard has passed, the body of
    lot_geometry_mga_from_point never produces the guard ValueError. -/
theorem lot_geometry_steps_not_invalid (net : GeoRequest → Json) (lon lat : ℚ)
    (epsg : Int) (m : String) :
    (lot_geometry_steps net lon lat epsg).2 ≠ .error (.invalidEpsg m) := by
  unfold lot_geometry_steps
  dsimp only
  split
  · simp
  · split
    · split
      · simp
      · split
        · simp
        · split
          · simp
          · simp
    · simp

/-! ## Claim theorems for the business functions -/

/-- Claim C6 counterexample: for the address with no road type parsed,
    parse_simple_address yields an empty road type, yet the outgoing
    parameters of address_to_point still contain the roadType key with an
    empty-string value. -/
theorem claim_param_omission_counterexample :
    parse_simple_address "87A BUNARBA" = ("87A", "BUNARBA", "") ∧
    ("roadType", ParamVal.str "") ∈
      address_to_point_params "87A BUNARBA" Option.none PyPostcode.none :=
  ⟨by decide, by decide⟩

/-- Claim C6 as amended: the optional suburb and postCode parameters are
    omitted exactly when absent or empty — suburb appears iff the argument
    is a nonempty string with nonempty strip, postCode iff the coercion
    succeeds — while the address-derived keys, roadType among them, are
    always sent, possibly with empty-string values. -/
theorem claim_param_omission_amended (address : String) (suburb : Option String)
    (postcode : PyPostcode) :
    ((∃ v, ("suburb", v) ∈ address_to_point_params address suburb postcode) ↔
      (∃ sb, suburb = some sb ∧ sb ≠ "" ∧ pyStrip sb ≠ "")) ∧
    ((∃ v, ("postCode", v) ∈ address_to_point_params address suburb postcode) ↔
      _coerce_postcode postcode ≠ Option.none) ∧
    (∃ v, ("roadType", v) ∈ address_to_point_params address suburb postcode) := by
  rcases suburb with _ | sb
  · rcases hpc : _coerce_postcode postcode with _ | n <;>
      simp [address_to_point_params, hpc]
  · by_cases hsb : sb ≠ "" ∧ pyStrip sb ≠ "" <;>
      rcases hpc : _coerce_postcode postcode with _ | n <;>
        simp [address_to_point_params, hpc, hsb]

/-- Claim C9: lot_geometry_mga_from_point raises the guard ValueError
    exactly when epsg lies outside both ranges 7846..7859 and
    28346..28359, and then no network request has been issued; for epsg
    inside either range the guard error is never raised, whatever the
    service answers. -/
theorem claim_epsg_guard (net : GeoRequest → Json) (lon lat : ℚ) (epsg : Int) :
    (lot_geometry_mga_from_point net lon lat epsg =
        ([], .error (.invalidEpsg epsgGuardMsg)) ↔
      ¬ ((7846 ≤ epsg ∧ epsg ≤ 7859) ∨ (28346 ≤ epsg ∧ epsg ≤ 28359))) ∧
    ∀ m, ((7846 ≤ epsg ∧ epsg ≤ 7859) ∨ (28346 ≤ epsg ∧ epsg ≤ 28359)) →
      (lot_geometry_mga_from_point net lon lat epsg).2 ≠ .error (.invalidEpsg m) := by
  constructor
  · constructor
    · intro h hin
      have h2 : (lot_geometry_mga_from_point net lon lat epsg).2 =
          .error (.invalidEpsg epsgGuardMsg) := by rw [h]
      rw [lot_geometry_mga_from_point, if_neg (by tauto)] at h2
      exact lot_geometry_steps_not_invalid net lon lat epsg epsgGuardMsg h2
    · intro hout
      rw [lot_geometry_mga_from_point, if_pos (not_or.mp hout)]
  · intro m hin
    rw [lot_geometry_mga_from_point, if_neg (by tauto)]
    exact lot_geometry_steps_not_invalid net lon lat epsg m

/-- Witness for claim C9: epsg 5000 raises the guard error with no
    request issued; epsg 7856 never produces the guard error. -/
theorem claim_epsg_guard_witness :
    lot_geometry_mga_from_point (fun _ => Json.null) 0 0 5000 =
      ([], .error (.invalidEpsg epsgGuardMsg)) ∧
    (lot_geometry_mga_from_point (fun _ => Json.null) 0 0 7856).2 ≠
      .error (.invalidEpsg epsgGuardMsg) :=
  ⟨(claim_epsg_guard (fun _ => Json.null) 0 0 5000).1.mpr (by decide),
   (claim_epsg_guard (fun _ => Json.null) 0 0 7856).2 epsgGuardMsg (by decide)⟩

/-- Claim C10: the list returned by lots_plans_from_point has no duplicate
    (lot, section, plan) triples, every element has a truthy lot number or
    plan label, and no section survives as a string spelling null or blank
    after strip and lower; the list returned by nearby_lots has no
    duplicate (lot, plan) pairs and every element has both a truthy lot
    number and a truthy plan label. -/
theorem claim_projection_invariants (js : Json) :
    (lots_plans_from_point js).Nodup ∧
    (∀ t ∈ lots_plans_from_point js, (t.1.truthy ∨ t.2.2.truthy) ∧
      ∀ z, t.2.1 = Json.str z → pyLower (pyStrip z) ≠ "null" ∧ pyLower (pyStrip z) ≠ "") ∧
    (nearby_lots js).Nodup ∧
    (∀ p ∈ nearby_lots js, p.1.truthy ∧ p.2.truthy) := by
  refine ⟨lots_plans_loop_nodup _ _ List.nodup_nil, ?_,
    nearby_lots_loop_nodup _ _ List.nodup_nil, ?_⟩
  · intro t ht
    rcases lots_plans_loop_mem _ _ t ht with h | h
    · exact absurd h (List.not_mem_nil t)
    · exact h
  · intro p hp
    rcases nearby_lots_loop_mem _ _ p hp with h | h
    · exact absurd h (List.not_mem_nil p)
    · exact h

/-- Witness for claim C10 at a concrete one-feature response: the element
    the projections return satisfies the truthiness invariants. -/
theorem claim_projection_invariants_witness :
    ((Json.str "5").truthy ∨ (Json.str "DP1").truthy) ∧
    ((Json.str "5").truthy ∧ (Json.str "DP1").truthy) := by
  have h := claim_projection_invariants (Json.obj (.cons "features" (Json.arr
    (.cons (Json.obj (.cons "attributes" (Json.obj (.cons "lotnumber" (.str "5")
      (.cons "planlabel" (.str "DP1") .nil))) .nil)) .nil)) .nil))
  exact ⟨(h.2.1 (Json.str "5", Json.null, Json.str "DP1") (by decide)).1,
         h.2.2.2 (Json.str "5", Json.str "DP1") (by decide)⟩

end NswSpatial
